import Mathlib

/-!
Verification development for the multi-source log analysis engine
(`scripts/analyze-test-logs.py`, class `LogAnalyzer`).

The Python code is shallowly embedded:
* the mutable collector state (`self.issues`, `self.insights`, `self.metrics`,
  `self.timeline`) becomes an explicit `AnalyzerState` threaded through every
  analyzer; Python `list.append` becomes list append at the end;
* the Python metrics `dict` is modelled as the journal of its write events
  (`Metrics := List (String × MetricValue)`); a lookup returns the value of
  the last write, which agrees with the final Python dict, and the journal
  additionally lets us reason about *how often* a key was written;
* JSON payloads are a `JsonVal` inductive; Python attribute/type errors that
  the source code does not catch are modelled with `Except String`;
* wall-clock fields (`datetime.now()` stamps attached to issues, insights and
  the summary) are not modelled: no analyzed claim mentions them, plus they are
  nondeterministic.  The `analysis_timestamp` metric is kept as a fixed
  placeholder string so that the write itself (and its journal position) stays;
* generic regular-expression matching over the per-category pattern tables
  (`re.findall(pattern, content, re.IGNORECASE)`) enters as an oracle
  (`Regex`), universally quantified in every theorem; the three fixed
  timestamp shapes of `_extract_timestamps`, the dotted-quad scan of
  `_analyze_tailscale_status` and the two `strptime` formats are implemented
  concretely (over ASCII, as `List Char`), mirroring CPython's leftmost
  non-overlapping scanning and `_strptime`'s per-directive alternations.
-/

/-- Severity of an Issue: the code only ever writes 'error' and 'warning'. -/
inductive Severity where
  | error
  | warning
deriving DecidableEq, Repr

/-- An Issue as appended by `LogAnalyzer._add_issue` (wall-clock stamp elided). -/
structure Issue where
  category : String
  message : String
  severity : Severity
deriving DecidableEq, Repr

/-- An Insight as appended by `LogAnalyzer._add_insight` (wall-clock stamp elided). -/
structure Insight where
  category : String
  message : String
deriving DecidableEq, Repr

/-- A timeline event as appended by `LogAnalyzer._add_timeline_event`.
The timestamp is the encoded instant produced by the timestamp extractor. -/
structure TimelineEvent where
  category : String
  timestamp : Nat
  event : String
deriving DecidableEq, Repr

/-- A recommendation record as built by `LogAnalyzer._generate_recommendations`. -/
structure Recommendation where
  priority : String
  category : String
  message : String
  action : String
deriving DecidableEq, Repr

/-- A JSON value (numbers restricted to integers; enough for every payload the
analyzers inspect). -/
inductive JsonVal where
  | null
  | bool (b : Bool)
  | num (n : Int)
  | str (s : String)
  | arr (xs : List JsonVal)
  | obj (fields : List (String × JsonVal))

/-- A value stored in the metrics dict: the code writes Python ints (counts,
line totals), strings (stripped system-info fragments, the timestamp
placeholder), raw JSON-derived objects (`tailscale_version`,
`container_memory_limit`, `container_cpu_limit`) and - at the very end - the
recommendations list itself. -/
inductive MetricValue where
  | num (n : Nat)
  | str (s : String)
  | jval (j : JsonVal)
  | recs (rs : List Recommendation)

/-- The metrics dict, as the journal of its write events (in program order).
The final dict maps each key to its *last* written value. -/
abbrev Metrics := List (String × MetricValue)

/-- Value of a key in the final dict built from a write journal: the last
write wins, `none` when the key was never written. -/
def mlookup : Metrics → String → Option MetricValue
  | [], _ => none
  | (k', v) :: rest, k =>
    match mlookup rest k with
    | some r => some r
    | none => if k' = k then some v else none

/-- How many times a key was written during the run. -/
def mcount (m : Metrics) (k : String) : Nat :=
  (m.filter (fun p => p.1 = k)).length

/-- The collector state: `self.issues`, `self.insights`, `self.metrics`,
`self.timeline` of one `LogAnalyzer` run. -/
structure AnalyzerState where
  issues : List Issue
  insights : List Insight
  metrics : Metrics
  timeline : List TimelineEvent

/-- Fresh collector, as set up in `LogAnalyzer.__init__`. -/
def initState : AnalyzerState := ⟨[], [], [], []⟩

/-- `LogAnalyzer._add_issue`. -/
def addIssue (st : AnalyzerState) (category message : String) (severity : Severity) :
    AnalyzerState :=
  { st with issues := st.issues ++ [⟨category, message, severity⟩] }

/-- `LogAnalyzer._add_insight`. -/
def addInsight (st : AnalyzerState) (category message : String) : AnalyzerState :=
  { st with insights := st.insights ++ [⟨category, message⟩] }

/-- `LogAnalyzer._add_timeline_event`. -/
def addTimelineEvent (st : AnalyzerState) (category : String) (timestamp : Nat)
    (event : String) : AnalyzerState :=
  { st with timeline := st.timeline ++ [⟨category, timestamp, event⟩] }

/-- `self.metrics[key] = value`: one write event appended to the journal. -/
def setMetric (st : AnalyzerState) (key : String) (v : MetricValue) : AnalyzerState :=
  { st with metrics := st.metrics ++ [(key, v)] }

/-- The terminal aggregate dict assembled at the end of
`LogAnalyzer.analyze_all_logs` (`analysis_results`). -/
structure AnalysisResults where
  summary : Metrics
  issues : List Issue
  insights : List Insight
  metrics : Metrics
  timeline : List TimelineEvent
  recommendations : List Recommendation

/-- Result of reading a text log file: decoded content, or an I/O failure with
the exception text (`str(e)`). -/
inductive FileRead where
  | ok (content : List Char)
  | err (msg : String)

/-- Result of `json.load` on a present JSON file: a parsed value, or a
`json.JSONDecodeError`. -/
inductive JsonRead where
  | ok (j : JsonVal)
  | decodeError

/-- The snapshot of the log directory that one run consumes: each expected
artifact is present or absent (`_exists` checks); a missing `container/` (or
other) directory is the same as both of its files being absent. `molecule`
lists the `*.log` stems in glob order. -/
structure LogDirInput where
  logDir : String
  containerRecent : Option FileRead
  containerInspect : Option JsonRead
  dockerCompose : Option FileRead
  molecule : List (String × FileRead)
  tailscaleTxt : Option FileRead
  tailscaleJson : Option JsonRead
  tailscaleJournal : Option FileRead
  hostInfo : Option FileRead
  containerInfo : Option FileRead

/-- Semantics oracle for the generic pattern-table regexes: `count p c` is
`len(re.findall(p, c, re.IGNORECASE))`, `search p c` is the first group of
`re.search(p, c)` when it matches. Every theorem is proved for an arbitrary
oracle, since no analyzed claim depends on a particular pattern-table regex. -/
structure Regex where
  count : String → List Char → Nat
  search : String → List Char → Option (List Char)

/-- Python `needle in haystack` prefix test on character lists. -/
def startsWith : List Char → List Char → Bool
  | [], _ => true
  | _ :: _, [] => false
  | a :: as, b :: bs => a == b && startsWith as bs

/-- Python substring test `needle in haystack` on character lists. -/
def containsSub (nd : List Char) : List Char → Bool
  | [] => startsWith nd []
  | c :: rest => startsWith nd (c :: rest) || containsSub nd rest

/-- Python `str.strip()`. -/
def pyStrip (s : String) : String :=
  String.mk (((s.toList.dropWhile Char.isWhitespace).reverse.dropWhile
    Char.isWhitespace).reverse)

/-- `stem.replace('-', '_')` from `_analyze_molecule_logs`. -/
def replaceDash (s : String) : String :=
  String.mk (s.toList.map (fun c => if c = '-' then '_' else c))

/-- Python `content.split('\n')`: naive split on the newline character;
`""` splits to `[""]`, a trailing newline yields a trailing empty segment. -/
def pySplitNl : List Char → List (List Char)
  | [] => [[]]
  | c :: rest =>
    if c = '\n' then [] :: pySplitNl rest
    else
      match pySplitNl rest with
      | s :: ss => (c :: s) :: ss
      | [] => [[c]]

theorem pySplitNl_ne_nil (l : List Char) : pySplitNl l ≠ [] := by
  induction l with
  | nil => simp [pySplitNl]
  | cons c rest ih =>
    simp only [pySplitNl]
    split
    · simp
    · cases h : pySplitNl rest with
      | nil => exact absurd h ih
      | cons s ss => simp

/-- The naive split produces exactly one more segment than there are newline
characters in the body. -/
theorem length_pySplitNl (l : List Char) :
    (pySplitNl l).length = l.count '\n' + 1 := by
  induction l with
  | nil => simp [pySplitNl]
  | cons c rest ih =>
    simp only [pySplitNl]
    by_cases h : c = '\n'
    · subst h
      simp [List.count_cons, ih]
    · simp only [if_neg h]
      cases hs : pySplitNl rest with
      | nil => exact absurd hs (pySplitNl_ne_nil rest)
      | cons s ss =>
        have := ih
        rw [hs] at this
        simp only [List.length_cons] at this ⊢
        rw [List.count_cons]
        simp [h, Ne.symm h, this]

/-! ### Timestamp extraction (`LogAnalyzer._extract_timestamps`)

The three extraction regexes are fixed-shape character-class sequences; we
model each as a list of character predicates (ASCII reading of Python's
`\d` / `\w`) and implement `re.findall`'s leftmost non-overlapping scan.
-/

/-- ASCII `\d`. -/
def isDigitC (c : Char) : Bool := c.isDigit

/-- ASCII `\w`. -/
def isWordC (c : Char) : Bool := c.isAlphanum || c == '_'

/-- Character between two bounds (inclusive), for regex classes like `[0-2]`. -/
def inRange (lo hi c : Char) : Bool :=
  decide (lo.toNat ≤ c.toNat) && decide (c.toNat ≤ hi.toNat)

/-- Shape of `r'(\d{4}-\d{2}-\d{2}[T ]\d{2}:\d{2}:\d{2})'`. -/
def isoShape : List (Char → Bool) :=
  [isDigitC, isDigitC, isDigitC, isDigitC, (· == '-'), isDigitC, isDigitC, (· == '-'),
   isDigitC, isDigitC, (fun c => c == 'T' || c == ' '), isDigitC, isDigitC, (· == ':'),
   isDigitC, isDigitC, (· == ':'), isDigitC, isDigitC]

/-- Shape of `r'(\d{2}/\d{2}/\d{4} \d{2}:\d{2}:\d{2})'`. -/
def slashShape : List (Char → Bool) :=
  [isDigitC, isDigitC, (· == '/'), isDigitC, isDigitC, (· == '/'), isDigitC, isDigitC,
   isDigitC, isDigitC, (· == ' '), isDigitC, isDigitC, (· == ':'), isDigitC, isDigitC,
   (· == ':'), isDigitC, isDigitC]

/-- Shape of the short syslog style `r'(\w{3} \d{2} \d{2}:\d{2}:\d{2})'`. -/
def syslogShape : List (Char → Bool) :=
  [isWordC, isWordC, isWordC, (· == ' '), isDigitC, isDigitC, (· == ' '), isDigitC,
   isDigitC, (· == ':'), isDigitC, isDigitC, (· == ':'), isDigitC, isDigitC]

/-- Match a fixed shape at the head of the text: the matched characters and
the remainder. -/
def matchShape : List (Char → Bool) → List Char → Option (List Char × List Char)
  | [], s => some ([], s)
  | _ :: _, [] => none
  | p :: ps, c :: s =>
    if p c then
      match matchShape ps s with
      | some (m, r) => some (c :: m, r)
      | none => none
    else none

theorem matchShape_spec {ps : List (Char → Bool)} {s m r : List Char}
    (h : matchShape ps s = some (m, r)) :
    List.Forall₂ (fun p c => p c = true) ps m ∧ s = m ++ r := by
  induction ps generalizing s m r with
  | nil =>
    simp only [matchShape, Option.some.injEq, Prod.mk.injEq] at h
    obtain ⟨h1, h2⟩ := h
    subst h1; subst h2
    exact ⟨List.Forall₂.nil, rfl⟩
  | cons p ps ih =>
    cases s with
    | nil => simp [matchShape] at h
    | cons c cs =>
      simp only [matchShape] at h
      split at h
      · cases hm : matchShape ps cs with
        | none => rw [hm] at h; exact absurd h (by simp)
        | some mr =>
          obtain ⟨m0, r0⟩ := mr
          rw [hm] at h
          simp only [Option.some.injEq, Prod.mk.injEq] at h
          obtain ⟨h1, h2⟩ := h
          subst h2
          obtain ⟨ih1, ih2⟩ := ih hm
          subst h1
          refine ⟨List.Forall₂.cons (by assumption) ih1, by simp [ih2]⟩
      · exact absurd h (by simp)

/-- One scan step of `re.findall`: match at the current position and jump past
the match, or advance one character.  Fuel-indexed for structural recursion;
the callers supply `length + 1` fuel, enough because every iteration consumes
at least one character of a nonempty text. -/
def findallFuel (shape : List (Char → Bool)) : Nat → List Char → List (List Char)
  | 0, _ => []
  | fuel + 1, s =>
    match matchShape shape s with
    | some (m, r) =>
      if m.isEmpty then [] else m :: findallFuel shape fuel r
    | none =>
      match s with
      | [] => []
      | _ :: rest => findallFuel shape fuel rest

/-- `re.findall(shape, content)` for a fixed-shape pattern: the leftmost
non-overlapping matches, in text order. -/
def findall (shape : List (Char → Bool)) (s : List Char) : List (List Char) :=
  findallFuel shape (s.length + 1) s

/-- Every match produced by the scanner satisfies the shape pointwise. -/
theorem mem_findallFuel {shape : List (Char → Bool)} {m : List Char} :
    ∀ {fuel : Nat} {s : List Char}, m ∈ findallFuel shape fuel s →
      List.Forall₂ (fun p c => p c = true) shape m := by
  intro fuel
  induction fuel with
  | zero => intro s h; simp [findallFuel] at h
  | succ n ih =>
    intro s h
    simp only [findallFuel] at h
    cases hm : matchShape shape s with
    | some mr =>
      obtain ⟨m0, r0⟩ := mr
      rw [hm] at h
      by_cases he : m0.isEmpty
      · simp [he] at h
      · simp only [he, if_neg, Bool.false_eq_true, not_false_eq_true, List.mem_cons] at h
        rcases h with h | h
        · subst h; exact (matchShape_spec hm).1
        · exact ih h
    | none =>
      rw [hm] at h
      cases s with
      | nil => simp at h
      | cons c rest => exact ih h

theorem mem_findall {shape : List (Char → Bool)} {m s : List Char}
    (h : m ∈ findall shape s) : List.Forall₂ (fun p c => p c = true) shape m :=
  mem_findallFuel h

/-! ### `datetime.strptime` for the two attempted formats

CPython's `_strptime` compiles each directive into a regex alternation and
requires the whole string to be consumed; the resulting `datetime` constructor
then validates the calendar fields.  We implement the two format strings
`'%Y-%m-%d %H:%M:%S'` and `'%Y-%m-%dT%H:%M:%S'` directly, with each numeric
directive producing its alternatives in CPython's order and full backtracking
over them.  A parsed instant is encoded as a single `Nat`, strictly monotone
in the (year, month, day, hour, minute, second) tuple, so that `sorted(...)`
on `datetime` values is ordinary `Nat` sorting. -/

/-- Numeric value of an ASCII digit. -/
def dval (c : Char) : Nat := c.toNat - 48

/-- A two-character alternative of a directive's regex (e.g. `1[0-2]`). -/
def alt2 (p q : Char → Bool) : List Char → List (Nat × List Char)
  | a :: b :: rest => if p a && q b then [(10 * dval a + dval b, rest)] else []
  | _ => []

/-- A one-character alternative of a directive's regex (e.g. `[1-9]`). -/
def alt1 (p : Char → Bool) : List Char → List (Nat × List Char)
  | a :: rest => if p a then [(dval a, rest)] else []
  | _ => []

/-- `%Y`: exactly four digits. -/
def yearAlts : List Char → List (Nat × List Char)
  | a :: b :: c :: d :: rest =>
    if isDigitC a && isDigitC b && isDigitC c && isDigitC d then
      [(1000 * dval a + 100 * dval b + 10 * dval c + dval d, rest)]
    else []
  | _ => []

/-- `%m`: `1[0-2]|0[1-9]|[1-9]`. -/
def monthAlts (s : List Char) : List (Nat × List Char) :=
  alt2 (· == '1') (inRange '0' '2') s ++ alt2 (· == '0') (inRange '1' '9') s ++
    alt1 (inRange '1' '9') s

/-- `%d`: `3[01]|[12]\d|0[1-9]|[1-9]`. -/
def dayAlts (s : List Char) : List (Nat × List Char) :=
  alt2 (· == '3') (inRange '0' '1') s ++ alt2 (inRange '1' '2') isDigitC s ++
    alt2 (· == '0') (inRange '1' '9') s ++ alt1 (inRange '1' '9') s

/-- `%H`: `2[0-3]|[0-1]\d|\d`. -/
def hourAlts (s : List Char) : List (Nat × List Char) :=
  alt2 (· == '2') (inRange '0' '3') s ++ alt2 (inRange '0' '1') isDigitC s ++
    alt1 isDigitC s

/-- `%M`: `[0-5]\d|\d`. -/
def minuteAlts (s : List Char) : List (Nat × List Char) :=
  alt2 (inRange '0' '5') isDigitC s ++ alt1 isDigitC s

/-- `%S`: `6[0-1]|[0-5]\d|\d` (the regex admits leap seconds; the `datetime`
constructor afterwards rejects 60 and 61). -/
def secondAlts (s : List Char) : List (Nat × List Char) :=
  alt2 (· == '6') (inRange '0' '1') s ++ alt2 (inRange '0' '5') isDigitC s ++
    alt1 isDigitC s

/-- Try the alternatives of one directive in order, backtracking into the
continuation. -/
def bindAlts : List (Nat × List Char) → (Nat → List Char → Option Nat) → Option Nat
  | [], _ => none
  | (v, s) :: rest, k =>
    match k v s with
    | some r => some r
    | none => bindAlts rest k

/-- A literal character of the format string. -/
def expectC (c : Char) (s : List Char) (k : List Char → Option Nat) : Option Nat :=
  match s with
  | x :: rest => if x == c then k rest else none
  | [] => none

/-- The Gregorian leap-year rule used by `datetime`. -/
def isLeap (y : Nat) : Bool :=
  y % 4 == 0 && (y % 100 != 0 || y % 400 == 0)

def daysInMonth (y m : Nat) : Nat :=
  if m = 2 then (if isLeap y then 29 else 28)
  else if m = 4 ∨ m = 6 ∨ m = 9 ∨ m = 11 then 30
  else 31

/-- The `datetime(...)` constructor: validates the fields (year ≥ 1, calendar
day, second ≤ 59 - leap seconds are rejected) and encodes the instant,
strictly monotone in the lexicographic field order. -/
def mkDatetime (y mo d h mi s : Nat) : Option Nat :=
  if 1 ≤ y ∧ 1 ≤ mo ∧ mo ≤ 12 ∧ 1 ≤ d ∧ d ≤ daysInMonth y mo ∧ h ≤ 23 ∧ mi ≤ 59 ∧ s ≤ 59
  then some (s + 60 * (mi + 60 * (h + 24 * (d + 32 * (mo + 13 * y)))))
  else none

/-- `datetime.strptime(text, '%Y-%m-%d' + sep + '%H:%M:%S')` with full-string
consumption; the single literal between date and time is `' '` or `'T'`.
(The format-string space matches a single space here; the extractor only ever
feeds strings whose separator is exactly one character.) -/
def strptimeISO (sep : Char) (s : List Char) : Option Nat :=
  bindAlts (yearAlts s) fun y s =>
  expectC '-' s fun s =>
  bindAlts (monthAlts s) fun mo s =>
  expectC '-' s fun s =>
  bindAlts (dayAlts s) fun d s =>
  expectC sep s fun s =>
  bindAlts (hourAlts s) fun h s =>
  expectC ':' s fun s =>
  bindAlts (minuteAlts s) fun mi s =>
  expectC ':' s fun s =>
  bindAlts (secondAlts s) fun sec s =>
  if s.isEmpty then mkDatetime y mo d h mi sec else none

/-- The try/except ladder inside `_extract_timestamps`: first
`'%Y-%m-%d %H:%M:%S'`, then `'%Y-%m-%dT%H:%M:%S'`; an unparsable match is
silently skipped. -/
def tryParseTimestamp (m : List Char) : Option Nat :=
  match strptimeISO ' ' m with
  | some t => some t
  | none => strptimeISO 'T' m

/-- `LogAnalyzer._extract_timestamps`: collect the matches of the three
patterns in pattern order, parse each, and return `sorted(timestamps)`. -/
def extractTimestamps (content : List Char) : List Nat :=
  let ms := findall isoShape content ++ findall slashShape content ++
    findall syslogShape content
  List.insertionSort (· ≤ ·) (ms.filterMap tryParseTimestamp)

/-! ### Python-dict semantics over JSON payloads

Operations the structured analyzers perform on `json.load`ed data, with the
uncaught `TypeError` / `AttributeError` / `KeyError` paths modelled in
`Except String` (the string standing for `str(e)`). -/

/-- First binding of a key in a JSON object (JSON objects have unique keys). -/
def jfield (fs : List (String × JsonVal)) (k : String) : Option JsonVal :=
  match fs with
  | [] => none
  | (k', v) :: rest => if k' = k then some v else jfield rest k

/-- `d.get(key, default)`: raises `AttributeError` unless `d` is a dict. -/
def pyGetD (j : JsonVal) (k : String) (d : JsonVal) : Except String JsonVal :=
  match j with
  | .obj fs => .ok ((jfield fs k).getD d)
  | _ => .error "AttributeError: object has no attribute get"

/-- `d[key]` subscription by a string key. -/
def pyItem (j : JsonVal) (k : String) : Except String JsonVal :=
  match j with
  | .obj fs =>
    match jfield fs k with
    | some v => .ok v
    | none => .error "KeyError"
  | _ => .error "TypeError: value is not subscriptable by str"

/-- Python `==` between a JSON value and a string literal. -/
def jsonEqStr (v : JsonVal) (s : String) : Bool :=
  match v with
  | .str t => t == s
  | _ => false

/-- Python truthiness of a JSON value. -/
def truthy : JsonVal → Bool
  | .null => false
  | .bool b => b
  | .num n => decide (n ≠ 0)
  | .str s => !s.isEmpty
  | .arr xs => !xs.isEmpty
  | .obj fs => !fs.isEmpty

/-- `key in value`: dict-key membership, list-element membership, substring
test on strings; `TypeError` otherwise. -/
def pyContains (k : String) (j : JsonVal) : Except String Bool :=
  match j with
  | .obj fs => .ok (fs.any (fun p => p.1 == k))
  | .arr xs => .ok (xs.any (fun v => jsonEqStr v k))
  | .str s => .ok (containsSub k.toList s.toList)
  | _ => .error "TypeError: argument is not iterable"

/-- `value > 0` (Python bools are ints); `TypeError` for non-numbers. -/
def pyGtZero (v : JsonVal) : Except String Bool :=
  match v with
  | .num n => .ok (decide (0 < n))
  | .bool b => .ok b
  | _ => .error "TypeError: not supported between instances"

/-- `len(value)`; `TypeError` for values without a length. -/
def pyLen (v : JsonVal) : Except String Nat :=
  match v with
  | .str s => .ok s.length
  | .arr xs => .ok xs.length
  | .obj fs => .ok fs.length
  | _ => .error "TypeError: object has no len"

/-- `str(value)` as interpolated into f-strings (container reprs simplified;
the analyzed claims interpolate only strings, numbers and None). -/
def pyStr : JsonVal → String
  | .null => "None"
  | .bool true => "True"
  | .bool false => "False"
  | .num n => toString n
  | .str s => s
  | .arr _ => "<list>"
  | .obj _ => "<dict>"

/-- An ASCII apostrophe, for the f-string quoting in pattern messages. -/
def quoteC : String := String.singleton (Char.ofNat 39)

/-! ### The generic log-file analyzer (`LogAnalyzer._analyze_log_file`) -/

/-- The issue message for a matched error/warning pattern. -/
def patternMsg (p : String) (n : Nat) : String :=
  "Pattern " ++ quoteC ++ p ++ quoteC ++ " found " ++ toString n ++ " times"

/-- The insight message for a matched success pattern. -/
def successMsg (p : String) (n : Nat) : String :=
  "Success pattern " ++ quoteC ++ p ++ quoteC ++ " found " ++ toString n ++ " times"

/-- The body of the nested pattern loop: one `(pattern_type, pattern_list)`
entry; the accumulator is (state, error_count, warning_count). -/
def patternStep (rx : Regex) (category : String) (content : List Char)
    (acc : AnalyzerState × Nat × Nat) (pt : String × List String) :
    AnalyzerState × Nat × Nat :=
  pt.2.foldl
    (fun acc2 p =>
      let n := rx.count p content
      if n ≠ 0 then
        if containsSub "error".toList pt.1.toList then
          (addIssue acc2.1 category (patternMsg p n) .error, acc2.2.1 + n, acc2.2.2)
        else if containsSub "warning".toList pt.1.toList then
          (addIssue acc2.1 category (patternMsg p n) .warning, acc2.2.1, acc2.2.2 + n)
        else if containsSub "success".toList pt.1.toList then
          (addInsight acc2.1 category (successMsg p n), acc2.2.1, acc2.2.2)
        else acc2
      else acc2)
    acc

/-- `LogAnalyzer._analyze_log_file`: read the body, count lines, run the
pattern table, emit one timeline event per extracted timestamp, then store
the three per-category metrics.  A read failure is caught and recorded as a
single error Issue. -/
def analyzeLogFile (rx : Regex) (fname : String) (fr : FileRead) (category : String)
    (patterns : List (String × List String)) (st : AnalyzerState) : AnalyzerState :=
  match fr with
  | .err e =>
    addIssue st category ("Failed to analyze log file " ++ fname ++ ": " ++ e) .error
  | .ok content =>
    let totalLines := (pySplitNl content).length
    let r := patterns.foldl (patternStep rx category content) (st, 0, 0)
    let st1 := (extractTimestamps content).foldl
      (fun s t => addTimelineEvent s category t "Log entry") r.1
    let st2 := setMetric st1 (category ++ "_lines") (.num totalLines)
    let st3 := setMetric st2 (category ++ "_errors") (.num r.2.1)
    setMetric st3 (category ++ "_warnings") (.num r.2.2)

/-! ### The structured analyzers -/

/-- `LogAnalyzer._analyze_container_inspection`.  This method has no
try/except of its own: a type error raised while poking at the payload
propagates (and, upstream, escapes the `json.JSONDecodeError`-only handler),
hence the `Except`. -/
def analyzeContainerInspection (j : JsonVal) (st : AnalyzerState) :
    Except String AnalyzerState := do
  let hasState ← pyContains "State" j
  let st ←
    if hasState then do
      let state ← pyItem j "State"
      let status ← pyGetD state "Status" .null
      let st :=
        if !jsonEqStr status "running" then
          addIssue st "container" ("Container not running: " ++ pyStr status) .error
        else st
      let health ← pyGetD state "Health" (.obj [])
      let hstatus ← pyGetD health "Status" .null
      let st :=
        if !(jsonEqStr hstatus "healthy" || (match hstatus with | .null => true | _ => false)) then
          addIssue st "container" ("Container unhealthy: " ++ pyStr hstatus) .warning
        else st
      let rc ← pyGetD state "RestartCount" (.num 0)
      let pos ← pyGtZero rc
      let st :=
        if pos then
          addIssue st "container" ("Container restarted " ++ pyStr rc ++ " times") .warning
        else st
      pure st
    else pure st
  let hasHC ← pyContains "HostConfig" j
  if hasHC then do
    let hc ← pyItem j "HostConfig"
    let memoryLimit ← pyGetD hc "Memory" (.num 0)
    let cpuLimit ← pyGetD hc "CpuQuota" (.num 0)
    let memPos ← pyGtZero memoryLimit
    let st := if memPos then setMetric st "container_memory_limit" (.jval memoryLimit) else st
    let cpuPos ← pyGtZero cpuLimit
    let st := if cpuPos then setMetric st "container_cpu_limit" (.jval cpuLimit) else st
    pure st
  else pure st

/-- The dotted-quad scan of `_analyze_tailscale_status`:
`len(re.findall(r'\d+\.\d+\.\d+\.\d+', content))`.  Try a maximal-munch
match of `digits '.' digits '.' digits '.' digits` at the head. -/
def matchIP (s : List Char) : Option (List Char) := do
  let (d1, r1) := s.span isDigitC
  if d1.isEmpty then none else
  match r1 with
  | '.' :: r2 =>
    let (d2, r3) := r2.span isDigitC
    if d2.isEmpty then none else
    match r3 with
    | '.' :: r4 =>
      let (d3, r5) := r4.span isDigitC
      if d3.isEmpty then none else
      match r5 with
      | '.' :: r6 =>
        let (d4, r7) := r6.span isDigitC
        if d4.isEmpty then none else some r7
      | _ => none
    | _ => none
  | _ => none

/-- The number of non-overlapping dotted-quad matches (fuel-indexed scan). -/
def countIPsFuel : Nat → List Char → Nat
  | 0, _ => 0
  | fuel + 1, s =>
    match matchIP s with
    | some r => 1 + countIPsFuel fuel r
    | none =>
      match s with
      | [] => 0
      | _ :: rest => countIPsFuel fuel rest

def countIPs (s : List Char) : Nat := countIPsFuel (s.length + 1) s

/-- `LogAnalyzer._analyze_tailscale_status`: the if/elif connection-status
ladder, then the peer-count metric.  The enclosing try/except turns a read
failure into a single error Issue. -/
def analyzeTailscaleStatus (fr : FileRead) (st : AnalyzerState) : AnalyzerState :=
  match fr with
  | .err e => addIssue st "tailscale" ("Failed to analyze status file: " ++ e) .error
  | .ok content =>
    let st :=
      if containsSub "Logged out".toList content then
        addIssue st "tailscale" "Tailscale is logged out" .error
      else if containsSub "Tailscale is stopped".toList content then
        addIssue st "tailscale" "Tailscale service is stopped" .error
      else if containsSub "Connected to".toList content then
        addInsight st "tailscale" "Tailscale is connected and running"
      else st
    setMetric st "tailscale_peer_count" (.num (countIPs content))

/-- The body of `LogAnalyzer._analyze_tailscale_json_status` inside its
try-block: on an exception the mutations made so far persist and the
exception text is handed to the handler. -/
def tailscaleJsonBody (j : JsonVal) (st : AnalyzerState) :
    AnalyzerState × Option String :=
  match pyGetD j "BackendState" .null with
  | .error m => (st, some m)
  | .ok bs =>
  let st :=
    if !jsonEqStr bs "Running" then
      addIssue st "tailscale" ("Tailscale backend state: " ++ pyStr bs) .error
    else st
  match pyGetD j "AuthEnabled" (.bool false) with
  | .error m => (st, some m)
  | .ok ae =>
  let st :=
    if !truthy ae then
      addIssue st "tailscale" "Tailscale authentication not enabled" .warning
    else st
  match pyGetD j "Version" (.obj []) with
  | .error m => (st, some m)
  | .ok version =>
  match (if truthy version then (pyGetD version "Long" (.str "unknown")).map some
         else .ok none) with
  | .error m => (st, some m)
  | .ok vres =>
  let st :=
    match vres with
    | some lv => setMetric st "tailscale_version" (.jval lv)
    | none => st
  match pyGetD j "Peer" (.obj []) with
  | .error m => (st, some m)
  | .ok peers =>
  match pyLen peers with
  | .error m => (st, some m)
  | .ok peerCount =>
  let st := setMetric st "tailscale_peer_count" (.num peerCount)
  match pyGetD j "CurrentTailnet" .null with
  | .error m => (st, some m)
  | .ok ct =>
  let st :=
    if truthy ct then
      addInsight st "tailscale" ("Connected to tailnet: " ++ pyStr ct)
    else st
  (st, none)

/-- `LogAnalyzer._analyze_tailscale_json_status`: the body plus its
`except Exception` handler. -/
def analyzeTailscaleJsonStatus (j : JsonVal) (st : AnalyzerState) : AnalyzerState :=
  match tailscaleJsonBody j st with
  | (st', none) => st'
  | (st', some m) =>
    addIssue st' "tailscale" ("Failed to analyze JSON status: " ++ m) .error

/-- `LogAnalyzer._analyze_system_info`. -/
def analyzeSystemInfo (rx : Regex) (fr : FileRead) (systemType : String)
    (st : AnalyzerState) : AnalyzerState :=
  match fr with
  | .err e => addIssue st systemType ("Failed to analyze system info: " ++ e) .error
  | .ok content =>
    let st :=
      if containsSub "Memory usage:".toList content then
        match rx.search "Memory usage:\\s*(.+)" content with
        | some g => setMetric st (systemType ++ "_memory_info") (.str (pyStrip (String.mk g)))
        | none => st
      else st
    let st :=
      if containsSub "Disk usage:".toList content then
        match rx.search "Disk usage:\\s*(.+)" content with
        | some g => setMetric st (systemType ++ "_disk_info") (.str (pyStrip (String.mk g)))
        | none => st
      else st
    if containsSub "No space left".toList content then
      addIssue st systemType "Disk space full or insufficient" .error
    else if containsSub "Cannot allocate memory".toList content then
      addIssue st systemType "Memory allocation issues" .error
    else st

/-! ### Pattern tables, category wrappers and the run orchestrator -/

/-- The pattern table passed for `container/container-recent.log`. -/
def containerPatterns : List (String × List String) :=
  [("startup_patterns", ["macOS.*boot", "System.*ready", "login.*window", "display.*manager"]),
   ("error_patterns", ["kernel.*panic", "segmentation.*fault", "panic:", "fatal.*error", "core.*dump"]),
   ("performance_patterns", ["CPU.*usage", "memory.*pressure", "disk.*I/O", "network.*timeout"])]

/-- The pattern table passed for `docker/docker-compose.log`. -/
def dockerPatterns : List (String × List String) :=
  [("startup_patterns", ["Creating.*macos", "Starting.*macos", "Container.*healthy"]),
   ("error_patterns", ["failed.*start", "port.*already.*allocated", "network.*error", "permission.*denied"]),
   ("warning_patterns", ["deprecated", "warning", "restart.*policy"])]

/-- The pattern table passed for each `molecule/*.log`. -/
def moleculePatterns : List (String × List String) :=
  [("success_patterns", ["PLAY RECAP.*ok=.*changed=.*unreachable=.*failed=0", "converge.*completed", "verify.*completed", "Test.*successful"]),
   ("failure_patterns", ["PLAY RECAP.*failed=[1-9]", "TASK.*failed", "fatal.*failed", "FAILED! =>", "AssertionError"]),
   ("performance_patterns", ["elapsed.*time", "task.*duration", "playbook.*execution"])]

/-- The pattern table passed for `tailscale/tailscaled-journal.log`. -/
def tailscaleServicePatterns : List (String × List String) :=
  [("error_patterns", ["error", "failed.*connect", "authentication.*failed", "network.*unreachable"]),
   ("info_patterns", ["starting.*tailscaled", "connected.*to.*control", "route.*added", "dns.*configured"])]

/-- `LogAnalyzer._analyze_container_logs`. -/
def analyzeContainerLogs (rx : Regex) (inp : LogDirInput) (st : AnalyzerState) :
    Except String AnalyzerState :=
  let st :=
    match inp.containerRecent with
    | some fr =>
      analyzeLogFile rx (inp.logDir ++ "/container/container-recent.log") fr
        "container" containerPatterns st
    | none => st
  match inp.containerInspect with
  | none => .ok st
  | some .decodeError => .ok (addIssue st "container" "Invalid JSON in container inspection" .error)
  | some (.ok j) => analyzeContainerInspection j st

/-- `LogAnalyzer._analyze_docker_logs`. -/
def analyzeDockerLogs (rx : Regex) (inp : LogDirInput) (st : AnalyzerState) :
    AnalyzerState :=
  match inp.dockerCompose with
  | some fr =>
    analyzeLogFile rx (inp.logDir ++ "/docker/docker-compose.log") fr
      "docker" dockerPatterns st
  | none => st

/-- `LogAnalyzer._analyze_molecule_logs`. -/
def analyzeMoleculeLogs (rx : Regex) (inp : LogDirInput) (st : AnalyzerState) :
    AnalyzerState :=
  inp.molecule.foldl
    (fun s sf =>
      analyzeLogFile rx (inp.logDir ++ "/molecule/" ++ sf.1 ++ ".log") sf.2
        ("molecule_" ++ replaceDash sf.1) moleculePatterns s)
    st

/-- `LogAnalyzer._analyze_tailscale_logs`. -/
def analyzeTailscaleLogs (rx : Regex) (inp : LogDirInput) (st : AnalyzerState) :
    AnalyzerState :=
  let st :=
    match inp.tailscaleTxt with
    | some fr => analyzeTailscaleStatus fr st
    | none => st
  let st :=
    match inp.tailscaleJson with
    | none => st
    | some .decodeError => addIssue st "tailscale" "Invalid JSON in Tailscale status" .error
    | some (.ok j) => analyzeTailscaleJsonStatus j st
  match inp.tailscaleJournal with
  | some fr =>
    analyzeLogFile rx (inp.logDir ++ "/tailscale/tailscaled-journal.log") fr
      "tailscale_service" tailscaleServicePatterns st
  | none => st

/-- `LogAnalyzer._analyze_system_logs`. -/
def analyzeSystemLogs (rx : Regex) (inp : LogDirInput) (st : AnalyzerState) :
    AnalyzerState :=
  let st :=
    match inp.hostInfo with
    | some fr => analyzeSystemInfo rx fr "host" st
    | none => st
  match inp.containerInfo with
  | some fr => analyzeSystemInfo rx fr "container" st
  | none => st

/-- `LogAnalyzer._generate_summary`: the aggregate counts appended to the
metrics dict (the wall-clock `analysis_timestamp` kept as a placeholder). -/
def generateSummary (st : AnalyzerState) : AnalyzerState :=
  let totalErrors := (st.issues.filter (fun i => i.severity == Severity.error)).length
  let totalWarnings := (st.issues.filter (fun i => i.severity == Severity.warning)).length
  { st with
    metrics := st.metrics ++
      [("total_issues", .num st.issues.length),
       ("total_errors", .num totalErrors),
       ("total_warnings", .num totalWarnings),
       ("total_insights", .num st.insights.length),
       ("analysis_timestamp", .str "<wall clock>")] }

/-- The four recommendation records, parametrized by the interpolated count. -/
def errorsRec (n : Nat) : Recommendation :=
  ⟨"high", "errors",
   "High number of errors detected (" ++ toString n ++ "). Review error patterns and fix underlying issues.",
   "Investigate error patterns in log analysis"⟩

def containerRec (n : Nat) : Recommendation :=
  ⟨"medium", "container",
   "Container issues detected (" ++ toString n ++ "). Check container configuration and resources.",
   "Review container logs and resource allocation"⟩

def tailscaleRec (n : Nat) : Recommendation :=
  ⟨"medium", "tailscale",
   "Tailscale issues detected (" ++ toString n ++ "). Verify authentication and network configuration.",
   "Check Tailscale status and configuration"⟩

def testingRec (n : Nat) : Recommendation :=
  ⟨"high", "testing",
   "Test failures detected (" ++ toString n ++ "). Review test configuration and role implementation.",
   "Debug Molecule test failures"⟩

/-- Number of issues whose category is exactly `cat`. -/
def issueCatCount (issues : List Issue) (cat : String) : Nat :=
  (issues.filter (fun i => i.category == cat)).length

/-- Number of issues whose category contains `'molecule'` as a substring. -/
def moleculeIssueCount (issues : List Issue) : Nat :=
  (issues.filter (fun i => containsSub "molecule".toList i.category.toList)).length

/-- `LogAnalyzer._generate_recommendations`: the fixed four-rule table,
each rule appending its record when its condition holds.  The comparison
`metrics.get('total_errors', 0) > 10` raises unless the stored value is an
int, hence the `Except`. -/
def generateRecommendations (issues : List Issue) (metrics : Metrics) :
    Except String (List Recommendation) :=
  match (mlookup metrics "total_errors").getD (.num 0) with
  | .num totalErrors =>
    let recommendations : List Recommendation := []
    let recommendations :=
      if 10 < totalErrors then recommendations ++ [errorsRec totalErrors]
      else recommendations
    let containerErrors := issueCatCount issues "container"
    let recommendations :=
      if 0 < containerErrors then recommendations ++ [containerRec containerErrors]
      else recommendations
    let tailscaleErrors := issueCatCount issues "tailscale"
    let recommendations :=
      if 0 < tailscaleErrors then recommendations ++ [tailscaleRec tailscaleErrors]
      else recommendations
    let moleculeErrors := moleculeIssueCount issues
    let recommendations :=
      if 0 < moleculeErrors then recommendations ++ [testingRec moleculeErrors]
      else recommendations
    .ok recommendations
  | _ => .error "TypeError: not supported between instances"

/-- `LogAnalyzer.analyze_all_logs`: the skeleton result dict (note its
`recommendations` key starts - and stays - empty), the five category passes,
the summary, the rule table (whose output goes into
`self.metrics['recommendations']`), and the final `update` that copies
issues/insights/metrics/timeline and aliases `summary` to the metrics dict
but never touches the top-level `recommendations` entry. -/
def analyzeAllLogs (rx : Regex) (inp : LogDirInput) : Except String AnalysisResults :=
  match analyzeContainerLogs rx inp initState with
  | .error e => .error e
  | .ok st1 =>
    let st2 := analyzeDockerLogs rx inp st1
    let st3 := analyzeMoleculeLogs rx inp st2
    let st4 := analyzeTailscaleLogs rx inp st3
    let st5 := analyzeSystemLogs rx inp st4
    let st6 := generateSummary st5
    match generateRecommendations st6.issues st6.metrics with
    | .error e => .error e
    | .ok recommendations =>
      let st7 := { st6 with
        metrics := st6.metrics ++ [("recommendations", MetricValue.recs recommendations)] }
      .ok { summary := st7.metrics, issues := st7.issues, insights := st7.insights,
            metrics := st7.metrics, timeline := st7.timeline, recommendations := [] }

/-! ### Journal and state-composition lemmas -/

theorem mlookup_append (a b : Metrics) (k : String) :
    mlookup (a ++ b) k =
      match mlookup b k with
      | some v => some v
      | none => mlookup a k := by
  induction a with
  | nil => cases h : mlookup b k <;> simp [mlookup, h]
  | cons p a ih =>
    obtain ⟨k', v⟩ := p
    simp only [List.cons_append, mlookup, List.append_eq]
    rw [ih]
    cases h : mlookup b k <;> cases h2 : mlookup a k <;> simp [h, h2]

theorem mcount_append (a b : Metrics) (k : String) :
    mcount (a ++ b) k = mcount a k + mcount b k := by
  simp [mcount, List.filter_append]

/-- Componentwise concatenation of collector states: `appendSt st d` is the
state reached from `st` by replaying the appends recorded in `d`. -/
def appendSt (a d : AnalyzerState) : AnalyzerState :=
  ⟨a.issues ++ d.issues, a.insights ++ d.insights, a.metrics ++ d.metrics,
   a.timeline ++ d.timeline⟩

theorem appendSt_initState_left (d : AnalyzerState) : appendSt initState d = d := by
  simp [appendSt, initState]

theorem appendSt_initState_right (a : AnalyzerState) : appendSt a initState = a := by
  simp [appendSt, initState]

theorem appendSt_assoc (a b c : AnalyzerState) :
    appendSt (appendSt a b) c = appendSt a (appendSt b c) := by
  simp [appendSt]

/-- A state transformer that only appends to the collector: its effect on any
state is its effect on the fresh state, replayed. Every category analyzer is
of this kind (none of them reads the collector). -/
def Frames (f : AnalyzerState → AnalyzerState) : Prop :=
  ∀ st, f st = appendSt st (f initState)

theorem Frames.appendSt_arg {f : AnalyzerState → AnalyzerState} (hf : Frames f)
    (a b : AnalyzerState) : f (appendSt a b) = appendSt a (f b) := by
  rw [hf (appendSt a b), appendSt_assoc, ← hf b]

theorem frames_id : Frames (fun st => st) := by
  intro st; rw [appendSt_initState_right]

theorem frames_comp {f g : AnalyzerState → AnalyzerState} (hf : Frames f)
    (hg : Frames g) : Frames (fun st => g (f st)) := by
  intro st
  show g (f st) = appendSt st (g (f initState))
  rw [hf st, hg.appendSt_arg]

theorem frames_addIssue (c m : String) (sev : Severity) :
    Frames (fun st => addIssue st c m sev) := by
  intro st; simp [addIssue, appendSt, initState]

theorem frames_addInsight (c m : String) :
    Frames (fun st => addInsight st c m) := by
  intro st; simp [addInsight, appendSt, initState]

theorem frames_addTimelineEvent (c : String) (t : Nat) (e : String) :
    Frames (fun st => addTimelineEvent st c t e) := by
  intro st; simp [addTimelineEvent, appendSt, initState]

theorem frames_setMetric (k : String) (v : MetricValue) :
    Frames (fun st => setMetric st k v) := by
  intro st; simp [setMetric, appendSt, initState]

theorem frames_ite {c : Prop} [Decidable c] {f g : AnalyzerState → AnalyzerState}
    (hf : Frames f) (hg : Frames g) : Frames (fun st => if c then f st else g st) := by
  intro st
  show (if c then f st else g st) = appendSt st (if c then f initState else g initState)
  by_cases h : c
  · simp only [if_pos h]; exact hf st
  · simp only [if_neg h]; exact hg st

theorem frames_foldl {α : Type} (f : AnalyzerState → α → AnalyzerState)
    (hf : ∀ x, Frames (fun st => f st x)) (l : List α) :
    Frames (fun st => l.foldl f st) := by
  induction l with
  | nil => intro st; simp [appendSt_initState_right]
  | cons x xs ih =>
    intro st
    show List.foldl f (f st x) xs = appendSt st (List.foldl f (f initState x) xs)
    have h1 : List.foldl f (f st x) xs = appendSt (f st x) (List.foldl f initState xs) :=
      ih (f st x)
    have h2 : List.foldl f (f initState x) xs =
        appendSt (f initState x) (List.foldl f initState xs) := ih (f initState x)
    have h3 : f st x = appendSt st (f initState x) := hf x st
    rw [h1, h3, appendSt_assoc, ← h2]

/-- Append-only transformer on the (state, error_count, warning_count)
accumulator of the pattern loop: the counter evolution is independent of the
incoming state. -/
def Frames2 (f : AnalyzerState × Nat × Nat → AnalyzerState × Nat × Nat) : Prop :=
  ∀ st e w, f (st, e, w) =
    (appendSt st (f (initState, e, w)).1, (f (initState, e, w)).2)

theorem frames2_foldl {α : Type}
    (f : AnalyzerState × Nat × Nat → α → AnalyzerState × Nat × Nat)
    (hf : ∀ x, Frames2 (fun acc => f acc x)) :
    ∀ l : List α, Frames2 (fun acc => l.foldl f acc)
  | [] => by
    intro st e w
    show (st, e, w) = (appendSt st initState, e, w)
    rw [appendSt_initState_right]
  | x :: xs => by
    intro st e w
    have hx : f (st, e, w) x =
        (appendSt st (f (initState, e, w) x).1, (f (initState, e, w) x).2) := hf x st e w
    rcases hA : f (initState, e, w) x with ⟨d1, e1, w1⟩
    rw [hA] at hx
    show List.foldl f (f (st, e, w) x) xs =
      (appendSt st (List.foldl f (f (initState, e, w) x) xs).1,
       (List.foldl f (f (initState, e, w) x) xs).2)
    rw [hx, hA]
    have h1 : List.foldl f (appendSt st d1, e1, w1) xs =
        (appendSt (appendSt st d1) (List.foldl f (initState, e1, w1) xs).1,
         (List.foldl f (initState, e1, w1) xs).2) :=
      frames2_foldl f hf xs (appendSt st d1) e1 w1
    have h2 : List.foldl f (d1, e1, w1) xs =
        (appendSt d1 (List.foldl f (initState, e1, w1) xs).1,
         (List.foldl f (initState, e1, w1) xs).2) :=
      frames2_foldl f hf xs d1 e1 w1
    rw [h1, h2, appendSt_assoc]

theorem frames2_patternStep (rx : Regex) (category : String) (content : List Char)
    (pt : String × List String) :
    Frames2 (fun acc => patternStep rx category content acc pt) := by
  unfold patternStep
  apply frames2_foldl
  intro p st e w
  by_cases hn : rx.count p content ≠ 0 <;>
    by_cases h1 : containsSub "error".toList pt.1.toList <;>
      by_cases h2 : containsSub "warning".toList pt.1.toList <;>
        by_cases h3 : containsSub "success".toList pt.1.toList <;>
          simp_all [addIssue, addInsight, appendSt, initState]

theorem frames_timelineFold (category : String) (ts : List Nat) :
    Frames (fun st => ts.foldl (fun s t => addTimelineEvent s category t "Log entry") st) :=
  frames_foldl _ (fun t => frames_addTimelineEvent category t "Log entry") ts

theorem frames_analyzeLogFile (rx : Regex) (fname : String) (fr : FileRead)
    (category : String) (patterns : List (String × List String)) :
    Frames (fun st => analyzeLogFile rx fname fr category patterns st) := by
  cases fr with
  | err e =>
    intro st
    exact frames_addIssue category ("Failed to analyze log file " ++ fname ++ ": " ++ e)
      .error st
  | ok content =>
    intro st
    have hp : Frames2 (fun acc => patterns.foldl (patternStep rx category content) acc) :=
      frames2_foldl _ (fun pt => frames2_patternStep rx category content pt) patterns
    have hfold : patterns.foldl (patternStep rx category content) (st, 0, 0) =
        (appendSt st (patterns.foldl (patternStep rx category content) (initState, 0, 0)).1,
         (patterns.foldl (patternStep rx category content) (initState, 0, 0)).2) := hp st 0 0
    rcases hR : patterns.foldl (patternStep rx category content) (initState, 0, 0) with ⟨d, de, dw⟩
    rw [hR] at hfold
    have htl := frames_timelineFold category (extractTimestamps content)
    show setMetric (setMetric (setMetric ((extractTimestamps content).foldl
        (fun s t => addTimelineEvent s category t "Log entry")
        (patterns.foldl (patternStep rx category content) (st, 0, 0)).1)
        (category ++ "_lines") (.num (pySplitNl content).length))
        (category ++ "_errors") (.num (patterns.foldl (patternStep rx category content) (st, 0, 0)).2.1))
        (category ++ "_warnings") (.num (patterns.foldl (patternStep rx category content) (st, 0, 0)).2.2) =
      appendSt st (analyzeLogFile rx fname (.ok content) category patterns initState)
    rw [hfold]
    have h1 : (extractTimestamps content).foldl
        (fun s t => addTimelineEvent s category t "Log entry") (appendSt st d) =
        appendSt st ((extractTimestamps content).foldl
          (fun s t => addTimelineEvent s category t "Log entry") d) :=
      htl.appendSt_arg st d
    rw [h1]
    rw [(frames_setMetric (category ++ "_lines") (.num (pySplitNl content).length)).appendSt_arg]
    rw [(frames_setMetric (category ++ "_errors") (.num de)).appendSt_arg]
    rw [(frames_setMetric (category ++ "_warnings") (.num dw)).appendSt_arg]
    show appendSt st _ = appendSt st _
    have : analyzeLogFile rx fname (.ok content) category patterns initState =
        setMetric (setMetric (setMetric ((extractTimestamps content).foldl
          (fun s t => addTimelineEvent s category t "Log entry")
          (patterns.foldl (patternStep rx category content) (initState, 0, 0)).1)
          (category ++ "_lines") (.num (pySplitNl content).length))
          (category ++ "_errors")
          (.num (patterns.foldl (patternStep rx category content) (initState, 0, 0)).2.1))
          (category ++ "_warnings")
          (.num (patterns.foldl (patternStep rx category content) (initState, 0, 0)).2.2) := rfl
    rw [this, hR]

theorem frames_analyzeTailscaleStatus (fr : FileRead) :
    Frames (fun st => analyzeTailscaleStatus fr st) := by
  cases fr with
  | err e =>
    intro st
    exact frames_addIssue "tailscale" ("Failed to analyze status file: " ++ e) .error st
  | ok content =>
    intro st
    by_cases h1 : containsSub "Logged out".toList content <;>
      by_cases h2 : containsSub "Tailscale is stopped".toList content <;>
        by_cases h3 : containsSub "Connected to".toList content <;>
          simp_all [analyzeTailscaleStatus, addIssue, addInsight, setMetric, appendSt,
            initState]

theorem tailscaleJsonBody_frame (j : JsonVal) (st : AnalyzerState) :
    tailscaleJsonBody j st =
      (appendSt st (tailscaleJsonBody j initState).1, (tailscaleJsonBody j initState).2) := by
  unfold tailscaleJsonBody
  repeat' split
  all_goals simp_all [addIssue, addInsight, setMetric, appendSt, initState]

theorem frames_analyzeTailscaleJsonStatus (j : JsonVal) :
    Frames (fun st => analyzeTailscaleJsonStatus j st) := by
  intro st
  show analyzeTailscaleJsonStatus j st = appendSt st (analyzeTailscaleJsonStatus j initState)
  unfold analyzeTailscaleJsonStatus
  rcases hB : tailscaleJsonBody j initState with ⟨d, o⟩
  have hst := tailscaleJsonBody_frame j st
  rw [hB] at hst
  rw [hst]
  cases o with
  | none => simp
  | some m =>
    simp only
    exact (frames_addIssue "tailscale" ("Failed to analyze JSON status: " ++ m)
      .error).appendSt_arg st d

theorem frames_analyzeSystemInfo (rx : Regex) (fr : FileRead) (systemType : String) :
    Frames (fun st => analyzeSystemInfo rx fr systemType st) := by
  cases fr with
  | err e =>
    intro st
    exact frames_addIssue systemType ("Failed to analyze system info: " ++ e) .error st
  | ok content =>
    intro st
    by_cases h1 : containsSub "Memory usage:".toList content <;>
      by_cases h2 : containsSub "Disk usage:".toList content <;>
        by_cases h3 : containsSub "No space left".toList content <;>
          by_cases h4 : containsSub "Cannot allocate memory".toList content <;>
            cases hm : rx.search "Memory usage:\\s*(.+)" content <;>
              cases hd : rx.search "Disk usage:\\s*(.+)" content <;>
                simp_all [analyzeSystemInfo, addIssue, setMetric, appendSt, initState]

set_option maxHeartbeats 1600000 in
theorem analyzeContainerInspection_frame (j : JsonVal) (st : AnalyzerState) :
    analyzeContainerInspection j st =
      (analyzeContainerInspection j initState).map (fun d => appendSt st d) := by
  unfold analyzeContainerInspection
  simp only [bind, Except.bind, pure, Except.pure]
  repeat' split
  all_goals simp_all [Except.map, addIssue, setMetric, appendSt, initState]

theorem analyzeContainerInspection_append (j : JsonVal) (a b : AnalyzerState) :
    analyzeContainerInspection j (appendSt a b) =
      (analyzeContainerInspection j b).map (fun d => appendSt a d) := by
  rw [analyzeContainerInspection_frame j (appendSt a b),
    analyzeContainerInspection_frame j b]
  cases analyzeContainerInspection j initState <;> simp [Except.map, appendSt_assoc]

theorem analyzeContainerLogs_frame (rx : Regex) (inp : LogDirInput) (st : AnalyzerState) :
    analyzeContainerLogs rx inp st =
      (analyzeContainerLogs rx inp initState).map (fun d => appendSt st d) := by
  cases hcr : inp.containerRecent with
  | none =>
    cases hci : inp.containerInspect with
    | none =>
      simp only [analyzeContainerLogs, hcr, hci]
      simp [Except.map, appendSt_initState_right]
    | some jr =>
      cases jr with
      | decodeError =>
        simp only [analyzeContainerLogs, hcr, hci, Except.map]
        exact congrArg Except.ok
          (frames_addIssue "container" "Invalid JSON in container inspection" .error st)
      | ok j =>
        simp only [analyzeContainerLogs, hcr, hci]
        exact analyzeContainerInspection_frame j st
  | some fr =>
    have hA : analyzeLogFile rx (inp.logDir ++ "/container/container-recent.log") fr
        "container" containerPatterns st =
        appendSt st (analyzeLogFile rx (inp.logDir ++ "/container/container-recent.log") fr
          "container" containerPatterns initState) :=
      frames_analyzeLogFile rx (inp.logDir ++ "/container/container-recent.log") fr
        "container" containerPatterns st
    cases hci : inp.containerInspect with
    | none =>
      simp only [analyzeContainerLogs, hcr, hci, Except.map]
      exact congrArg Except.ok hA
    | some jr =>
      cases jr with
      | decodeError =>
        simp only [analyzeContainerLogs, hcr, hci, Except.map]
        rw [hA]
        exact congrArg Except.ok
          ((frames_addIssue "container" "Invalid JSON in container inspection"
            .error).appendSt_arg st _)
      | ok j =>
        simp only [analyzeContainerLogs, hcr, hci]
        rw [hA]
        exact analyzeContainerInspection_append j st _

theorem frames_analyzeDockerLogs (rx : Regex) (inp : LogDirInput) :
    Frames (fun st => analyzeDockerLogs rx inp st) := by
  unfold analyzeDockerLogs
  cases inp.dockerCompose with
  | none => exact frames_id
  | some fr => exact frames_analyzeLogFile rx _ fr "docker" dockerPatterns

theorem frames_analyzeMoleculeLogs (rx : Regex) (inp : LogDirInput) :
    Frames (fun st => analyzeMoleculeLogs rx inp st) := by
  unfold analyzeMoleculeLogs
  exact frames_foldl _
    (fun sf => frames_analyzeLogFile rx (inp.logDir ++ "/molecule/" ++ sf.1 ++ ".log")
      sf.2 ("molecule_" ++ replaceDash sf.1) moleculePatterns)
    inp.molecule

theorem frames_analyzeTailscaleLogs (rx : Regex) (inp : LogDirInput) :
    Frames (fun st => analyzeTailscaleLogs rx inp st) := by
  have h1 : Frames (fun st =>
      match inp.tailscaleTxt with
      | some fr => analyzeTailscaleStatus fr st
      | none => st) := by
    cases inp.tailscaleTxt with
    | none => exact frames_id
    | some fr => exact frames_analyzeTailscaleStatus fr
  have h2 : Frames (fun st =>
      match inp.tailscaleJson with
      | none => st
      | some .decodeError => addIssue st "tailscale" "Invalid JSON in Tailscale status" .error
      | some (.ok j) => analyzeTailscaleJsonStatus j st) := by
    cases hj : inp.tailscaleJson with
    | none => exact frames_id
    | some jr =>
      cases jr with
      | decodeError => exact frames_addIssue "tailscale" "Invalid JSON in Tailscale status" .error
      | ok j => exact frames_analyzeTailscaleJsonStatus j
  have h3 : Frames (fun st =>
      match inp.tailscaleJournal with
      | some fr =>
        analyzeLogFile rx (inp.logDir ++ "/tailscale/tailscaled-journal.log") fr
          "tailscale_service" tailscaleServicePatterns st
      | none => st) := by
    cases inp.tailscaleJournal with
    | none => exact frames_id
    | some fr => exact frames_analyzeLogFile rx _ fr "tailscale_service" tailscaleServicePatterns
  intro st
  have e1 := (frames_comp (frames_comp h1 h2) h3) st
  exact e1

theorem frames_analyzeSystemLogs (rx : Regex) (inp : LogDirInput) :
    Frames (fun st => analyzeSystemLogs rx inp st) := by
  have h1 : Frames (fun st =>
      match inp.hostInfo with
      | some fr => analyzeSystemInfo rx fr "host" st
      | none => st) := by
    cases inp.hostInfo with
    | none => exact frames_id
    | some fr => exact frames_analyzeSystemInfo rx fr "host"
  have h2 : Frames (fun st =>
      match inp.containerInfo with
      | some fr => analyzeSystemInfo rx fr "container" st
      | none => st) := by
    cases inp.containerInfo with
    | none => exact frames_id
    | some fr => exact frames_analyzeSystemInfo rx fr "container"
  intro st
  have e1 := (frames_comp h1 h2) st
  exact e1

/-! ### Metric-journal facts about the generic analyzer -/

theorem metrics_patternStep (rx : Regex) (category : String) (content : List Char)
    (pt : String × List String) (acc : AnalyzerState × Nat × Nat) :
    (patternStep rx category content acc pt).1.metrics = acc.1.metrics := by
  unfold patternStep
  induction pt.2 generalizing acc with
  | nil => rfl
  | cons p ps ih =>
    rw [List.foldl_cons]
    rw [ih]
    by_cases hn : rx.count p content ≠ 0 <;>
      by_cases h1 : containsSub "error".toList pt.1.toList <;>
        by_cases h2 : containsSub "warning".toList pt.1.toList <;>
          by_cases h3 : containsSub "success".toList pt.1.toList <;>
            simp_all [addIssue, addInsight]

theorem metrics_patternFold (rx : Regex) (category : String) (content : List Char)
    (patterns : List (String × List String)) (acc : AnalyzerState × Nat × Nat) :
    (patterns.foldl (patternStep rx category content) acc).1.metrics = acc.1.metrics := by
  induction patterns generalizing acc with
  | nil => rfl
  | cons pt pts ih =>
    rw [List.foldl_cons, ih, metrics_patternStep]

theorem metrics_timelineFold (category : String) (ts : List Nat) (st : AnalyzerState) :
    (ts.foldl (fun s t => addTimelineEvent s category t "Log entry") st).metrics =
      st.metrics := by
  induction ts generalizing st with
  | nil => rfl
  | cons t ts ih =>
    rw [List.foldl_cons, ih]
    rfl

/-- On a successful read, the generic analyzer appends exactly its three
per-category metric writes, the first being the naive line count. -/
theorem analyzeLogFile_ok_metrics (rx : Regex) (fname : String) (content : List Char)
    (category : String) (patterns : List (String × List String)) (st : AnalyzerState) :
    ∃ e w : Nat,
      (analyzeLogFile rx fname (.ok content) category patterns st).metrics =
        st.metrics ++
          [(category ++ "_lines", .num (pySplitNl content).length),
           (category ++ "_errors", .num e),
           (category ++ "_warnings", .num w)] := by
  refine ⟨(patterns.foldl (patternStep rx category content) (st, 0, 0)).2.1,
    (patterns.foldl (patternStep rx category content) (st, 0, 0)).2.2, ?_⟩
  show (setMetric (setMetric (setMetric _ _ _) _ _) _ _).metrics = _
  simp only [setMetric]
  rw [metrics_timelineFold, metrics_patternFold]
  simp [List.append_assoc]

theorem string_append_ne_of_length {a b : String} (h : a.length ≠ b.length)
    (c : String) : c ++ a ≠ c ++ b := by
  intro hc
  have := congrArg String.length hc
  simp only [String.length_append] at this
  omega

/-! ### Summary and recommendation facts -/

theorem generateSummary_issues (st : AnalyzerState) :
    (generateSummary st).issues = st.issues := rfl

theorem generateSummary_insights (st : AnalyzerState) :
    (generateSummary st).insights = st.insights := rfl

theorem generateSummary_timeline (st : AnalyzerState) :
    (generateSummary st).timeline = st.timeline := rfl

/-- After the summary step, `total_errors` is present and is the int-valued
error count, so the recommendation engine's comparison cannot raise. -/
theorem mlookup_total_errors_generateSummary (st : AnalyzerState) :
    mlookup (generateSummary st).metrics "total_errors" =
      some (.num (st.issues.filter (fun i => i.severity == Severity.error)).length) := by
  show mlookup (st.metrics ++ _) "total_errors" = _
  rw [mlookup_append]
  simp [mlookup]

theorem generateRecommendations_after_summary (st : AnalyzerState) :
    generateRecommendations (generateSummary st).issues (generateSummary st).metrics =
      .ok ((fun totalErrors =>
        (((if 10 < totalErrors then [errorsRec totalErrors] else []) ++
          (if 0 < issueCatCount (generateSummary st).issues "container" then
            [containerRec (issueCatCount (generateSummary st).issues "container")] else [])) ++
          (if 0 < issueCatCount (generateSummary st).issues "tailscale" then
            [tailscaleRec (issueCatCount (generateSummary st).issues "tailscale")] else [])) ++
          (if 0 < moleculeIssueCount (generateSummary st).issues then
            [testingRec (moleculeIssueCount (generateSummary st).issues)] else []))
        (st.issues.filter (fun i => i.severity == Severity.error)).length) := by
  unfold generateRecommendations
  rw [mlookup_total_errors_generateSummary]
  simp only [Option.getD]
  by_cases h1 : 10 < (st.issues.filter (fun i => i.severity == Severity.error)).length <;>
    by_cases h2 : 0 < issueCatCount (generateSummary st).issues "container" <;>
      by_cases h3 : 0 < issueCatCount (generateSummary st).issues "tailscale" <;>
        by_cases h4 : 0 < moleculeIssueCount (generateSummary st).issues <;>
          simp [h1, h2, h3, h4]

/-! ### Claim theorems -/

/-- Claim C6: for every successfully read text body analyzed by the generic
log-file analyzer under category C, the metric `C_lines` equals the number of
newline-delimited segments obtained by naive split on the newline character
(equivalently, the newline count plus one), including the trailing empty
segment when the body ends with a line terminator: a 3-line body ending in a
newline yields 4. -/
theorem claim_C6_lines_metric (rx : Regex) (fname : String) (content : List Char)
    (category : String) (patterns : List (String × List String)) (st : AnalyzerState) :
    mlookup (analyzeLogFile rx fname (.ok content) category patterns st).metrics
        (category ++ "_lines") = some (.num (pySplitNl content).length) ∧
    (pySplitNl content).length = content.count '\n' + 1 ∧
    (pySplitNl "a\nb\nc\n".toList).length = 4 := by
  obtain ⟨e, w, hm⟩ := analyzeLogFile_ok_metrics rx fname content category patterns st
  refine ⟨?_, length_pySplitNl content, by rfl⟩
  rw [hm, mlookup_append]
  have h1 : (category ++ "_errors") ≠ (category ++ "_lines") :=
    string_append_ne_of_length (by decide) category
  have h2 : (category ++ "_warnings") ≠ (category ++ "_lines") :=
    string_append_ne_of_length (by decide) category
  simp [mlookup, h1, h2]

/-- The container inspection payload of the C7 scenario:
`State.Status = "exited"`, `State.RestartCount = 3`, no `Health`,
no `HostConfig`. -/
def containerPayloadC7 : JsonVal :=
  .obj [("State", .obj [("Status", .str "exited"), ("RestartCount", .num 3)])]

/-- Claim C7: on the exited/restarted payload without a Health sub-object the
container inspection analyzer emits exactly the error Issue "Container not
running: exited" followed by the warning Issue "Container restarted 3 times",
and nothing else - in particular no health-related Issue, no Insight and no
metric. -/
theorem claim_C7_container_inspection_scenario :
    analyzeContainerInspection containerPayloadC7 initState =
      .ok { issues := [⟨"container", "Container not running: exited", Severity.error⟩,
                       ⟨"container", "Container restarted 3 times", Severity.warning⟩],
            insights := [], metrics := [], timeline := [] } := by
  rfl

/-- The mesh-network JSON status of the C8 scenario. -/
def tailscalePayloadC8 : JsonVal :=
  .obj [("BackendState", .str "Running"), ("AuthEnabled", .bool false),
        ("CurrentTailnet", .str "tailnet-1"),
        ("Peer", .obj [("a", .obj []), ("b", .obj [])])]

/-- Claim C8: on a status with BackendState "Running", AuthEnabled false,
CurrentTailnet "tailnet-1" and a two-entry Peer map, the structured status
analyzer emits exactly one warning Issue (authentication disabled), exactly
one Insight (the tailnet name), writes tailscale_peer_count = 2, and emits
no error Issue. -/
theorem claim_C8_tailscale_json_scenario :
    analyzeTailscaleJsonStatus tailscalePayloadC8 initState =
      { issues := [⟨"tailscale", "Tailscale authentication not enabled", Severity.warning⟩],
        insights := [⟨"tailscale", "Connected to tailnet: tailnet-1"⟩],
        metrics := [("tailscale_peer_count", .num 2)], timeline := [] } ∧
    mlookup (analyzeTailscaleJsonStatus tailscalePayloadC8 initState).metrics
      "tailscale_peer_count" = some (.num 2) := by
  exact ⟨rfl, rfl⟩

/-- Claim C10: for every status text body, the connection-status ladder emits
at most one finding, selected by first match in the fixed order logged-out
error, stopped error, connected insight; a body containing both "Logged out"
and "Connected to" yields only the logged-out error. -/
theorem claim_C10_status_ladder (st : AnalyzerState) (content : List Char) :
    ((analyzeTailscaleStatus (.ok content) st).issues = st.issues ++
      (if containsSub "Logged out".toList content then
        [⟨"tailscale", "Tailscale is logged out", Severity.error⟩]
      else if containsSub "Tailscale is stopped".toList content then
        [⟨"tailscale", "Tailscale service is stopped", Severity.error⟩]
      else []) ∧
    (analyzeTailscaleStatus (.ok content) st).insights = st.insights ++
      (if containsSub "Logged out".toList content then []
       else if containsSub "Tailscale is stopped".toList content then []
       else if containsSub "Connected to".toList content then
        [⟨"tailscale", "Tailscale is connected and running"⟩]
       else [])) ∧
    ((analyzeTailscaleStatus (.ok content) st).issues.length - st.issues.length) +
      ((analyzeTailscaleStatus (.ok content) st).insights.length - st.insights.length) ≤ 1 ∧
    (analyzeTailscaleStatus (.ok "Logged out while Connected to corp".toList)
        initState).issues =
      [⟨"tailscale", "Tailscale is logged out", Severity.error⟩] ∧
    (analyzeTailscaleStatus (.ok "Logged out while Connected to corp".toList)
        initState).insights = [] := by
  refine ⟨⟨?_, ?_⟩, ?_, by rfl, by rfl⟩ <;>
    by_cases h1 : containsSub "Logged out".toList content <;>
      by_cases h2 : containsSub "Tailscale is stopped".toList content <;>
        by_cases h3 : containsSub "Connected to".toList content <;>
          simp_all [analyzeTailscaleStatus, addIssue, addInsight, setMetric]

/-- Full characterization of the rule table output when `total_errors` holds
an int: the four rules are evaluated unconditionally and their records are
concatenated in rule-table order. -/
theorem generateRecommendations_eq (issues : List Issue) (metrics : Metrics) (n : Nat)
    (h : (mlookup metrics "total_errors").getD (.num 0) = .num n) :
    generateRecommendations issues metrics = .ok
      ((((if 10 < n then [errorsRec n] else []) ++
        (if 0 < issueCatCount issues "container" then
          [containerRec (issueCatCount issues "container")] else [])) ++
        (if 0 < issueCatCount issues "tailscale" then
          [tailscaleRec (issueCatCount issues "tailscale")] else [])) ++
        (if 0 < moleculeIssueCount issues then
          [testingRec (moleculeIssueCount issues)] else [])) := by
  unfold generateRecommendations
  rw [h]
  by_cases h1 : 10 < n <;>
    by_cases h2 : 0 < issueCatCount issues "container" <;>
      by_cases h3 : 0 < issueCatCount issues "tailscale" <;>
        by_cases h4 : 0 < moleculeIssueCount issues <;>
          simp [h1, h2, h3, h4]

/-- Claim C3: the high-error-count recommendation (category "errors") appears
in the rule-table output exactly when the stored `total_errors` is strictly
greater than 10; in particular 11 triggers it and 10 does not. -/
theorem claim_C3_error_threshold (issues : List Issue) (metrics : Metrics) (n : Nat)
    (h : (mlookup metrics "total_errors").getD (.num 0) = .num n) :
    ∃ recs, generateRecommendations issues metrics = .ok recs ∧
      ((∃ r ∈ recs, r.category = "errors") ↔ 10 < n) := by
  refine ⟨_, generateRecommendations_eq issues metrics n h, ?_⟩
  constructor
  · rintro ⟨r, hr, hcat⟩
    by_contra h10
    simp only [h10, if_false] at hr
    simp only [List.mem_append, List.nil_append] at hr
    rcases hr with (hr | hr) | hr <;> split at hr <;>
      simp_all [containerRec, tailscaleRec, testingRec]
  · intro h10
    refine ⟨errorsRec n, ?_, rfl⟩
    simp [h10]

/-- Claim C3 witness: a `total_errors` of 11 yields the "errors"
recommendation, a `total_errors` of 10 does not. -/
theorem claim_C3_error_threshold_witness :
    (∃ recs, generateRecommendations [] [("total_errors", MetricValue.num 11)] = .ok recs ∧
      ((∃ r ∈ recs, r.category = "errors") ↔ 10 < 11)) ∧
    (∃ recs, generateRecommendations [] [("total_errors", MetricValue.num 10)] = .ok recs ∧
      ((∃ r ∈ recs, r.category = "errors") ↔ 10 < 10)) :=
  ⟨claim_C3_error_threshold [] [("total_errors", MetricValue.num 11)] 11 rfl,
   claim_C3_error_threshold [] [("total_errors", MetricValue.num 10)] 10 rfl⟩

theorem ite_singleton_sublist (c : Prop) [Decidable c] (x : Recommendation) :
    (if c then [x] else []).Sublist [x] := by
  split
  · exact List.Sublist.refl _
  · exact List.nil_sublist _

/-- Claim C4: given an int-valued `total_errors`, the engine evaluates all
four rules unconditionally; the output is a sublist of the four-record rule
table in fixed order (errors, container, tailscale, testing), each record
present exactly when its own condition holds - no rule suppresses a later
rule and priority never reorders the output. -/
theorem claim_C4_rule_table_order (issues : List Issue) (metrics : Metrics) (n : Nat)
    (h : (mlookup metrics "total_errors").getD (.num 0) = .num n) :
    ∃ recs, generateRecommendations issues metrics = .ok recs ∧
      recs.Sublist [errorsRec n, containerRec (issueCatCount issues "container"),
        tailscaleRec (issueCatCount issues "tailscale"),
        testingRec (moleculeIssueCount issues)] ∧
      (errorsRec n ∈ recs ↔ 10 < n) ∧
      (containerRec (issueCatCount issues "container") ∈ recs ↔
        0 < issueCatCount issues "container") ∧
      (tailscaleRec (issueCatCount issues "tailscale") ∈ recs ↔
        0 < issueCatCount issues "tailscale") ∧
      (testingRec (moleculeIssueCount issues) ∈ recs ↔
        0 < moleculeIssueCount issues) := by
  refine ⟨_, generateRecommendations_eq issues metrics n h, ?_, ?_, ?_, ?_, ?_⟩
  · have hsub := ((((ite_singleton_sublist (10 < n) (errorsRec n)).append
      (ite_singleton_sublist (0 < issueCatCount issues "container")
        (containerRec (issueCatCount issues "container")))).append
      (ite_singleton_sublist (0 < issueCatCount issues "tailscale")
        (tailscaleRec (issueCatCount issues "tailscale")))).append
      (ite_singleton_sublist (0 < moleculeIssueCount issues)
        (testingRec (moleculeIssueCount issues))))
    simpa using hsub
  all_goals
    constructor
  · rintro hr
    simp only [List.mem_append] at hr
    by_contra h10
    rcases hr with ((hr | hr) | hr) | hr <;> split at hr <;>
      simp_all [errorsRec, containerRec, tailscaleRec, testingRec]
  · intro h10
    simp [h10]
  · rintro hr
    simp only [List.mem_append] at hr
    by_contra h10
    rcases hr with ((hr | hr) | hr) | hr <;> split at hr <;>
      simp_all [errorsRec, containerRec, tailscaleRec, testingRec]
  · intro h10
    simp [h10]
  · rintro hr
    simp only [List.mem_append] at hr
    by_contra h10
    rcases hr with ((hr | hr) | hr) | hr <;> split at hr <;>
      simp_all [errorsRec, containerRec, tailscaleRec, testingRec]
  · intro h10
    simp [h10]
  · rintro hr
    simp only [List.mem_append] at hr
    by_contra h10
    rcases hr with ((hr | hr) | hr) | hr <;> split at hr <;>
      simp_all [errorsRec, containerRec, tailscaleRec, testingRec]
  · intro h10
    simp [h10]

/-- Claim C4 witness: with one container issue and `total_errors = 11` the
output is exactly the errors record followed by the container record. -/
theorem claim_C4_rule_table_order_witness :
    ∃ recs, generateRecommendations [⟨"container", "m", Severity.error⟩]
        [("total_errors", MetricValue.num 11)] = .ok recs ∧
      recs.Sublist [errorsRec 11, containerRec 1, tailscaleRec 0, testingRec 0] ∧
      (errorsRec 11 ∈ recs ↔ 10 < 11) := by
  obtain ⟨recs, h1, h2, h3, _⟩ := claim_C4_rule_table_order
    [⟨"container", "m", Severity.error⟩] [("total_errors", MetricValue.num 11)] 11 rfl
  exact ⟨recs, h1, h2, h3⟩

/-- A string of the short syslog shape `\w{3} \d{2} \d{2}:\d{2}:\d{2}` is
parsed by neither `'%Y-%m-%d %H:%M:%S'` nor `'%Y-%m-%dT%H:%M:%S'`: its fourth
character is a space where `%Y` demands a fourth digit. -/
theorem syslog_match_unparsable {m : List Char}
    (hm : List.Forall₂ (fun p c => p c = true) syslogShape m) :
    tryParseTimestamp m = none := by
  rcases hm with _ | ⟨h0, hm⟩
  rcases hm with _ | ⟨h1, hm⟩
  rcases hm with _ | ⟨h2, hm⟩
  rcases hm with _ | ⟨h3, hm⟩
  rename_i c0 c1 c2 c3 rest
  have hc3 : c3 = ' ' := by simpa using h3
  subst hc3
  have hd : isDigitC ' ' = false := rfl
  simp [tryParseTimestamp, strptimeISO, yearAlts, bindAlts, hd]

/-- Claim C5: for every input text the timestamp extractor returns an
ascending-sorted sequence which is, as a multiset, exactly the successfully
parsed instants of the matches of the three patterns (duplicates preserved);
every short syslog-style match parses under neither attempted format, so no
output instant originates from one, and the output is already accounted for
by the ISO-shaped and slash-shaped matches alone. -/
theorem claim_C5_extract_timestamps (content : List Char) :
    (extractTimestamps content).Sorted (· ≤ ·) ∧
    (extractTimestamps content).Perm
      ((findall isoShape content ++ findall slashShape content ++
        findall syslogShape content).filterMap tryParseTimestamp) ∧
    (∀ m ∈ findall syslogShape content, tryParseTimestamp m = none) ∧
    (extractTimestamps content).Perm
      ((findall isoShape content ++ findall slashShape content).filterMap
        tryParseTimestamp) := by
  have hs : ∀ m ∈ findall syslogShape content, tryParseTimestamp m = none :=
    fun m hm => syslog_match_unparsable (mem_findall hm)
  have hperm : (extractTimestamps content).Perm
      ((findall isoShape content ++ findall slashShape content ++
        findall syslogShape content).filterMap tryParseTimestamp) :=
    List.perm_insertionSort _ _
  refine ⟨List.sorted_insertionSort _ _, hperm, hs, ?_⟩
  have hnil : (findall syslogShape content).filterMap tryParseTimestamp = [] := by
    rw [List.filterMap_eq_nil_iff]
    exact hs
  calc (extractTimestamps content).Perm _ := hperm
    _ = (findall isoShape content ++ findall slashShape content).filterMap
          tryParseTimestamp := by
        rw [List.filterMap_append, hnil, List.append_nil]

/-- Claim C5 witness: on a concrete body holding one syslog-style stamp and
one ISO stamp, the extractor keeps only the parsed ISO instant, and the
syslog match is unparsable. -/
theorem claim_C5_extract_timestamps_witness :
    extractTimestamps "Sep 09 09:09:09 2024-01-02T03:04:05".toList = [72750366245] ∧
    findall syslogShape "Sep 09 09:09:09 2024-01-02T03:04:05".toList =
      ["Sep 09 09:09:09".toList] ∧
    tryParseTimestamp "Sep 09 09:09:09".toList = none := by
  have hf : findall syslogShape "Sep 09 09:09:09 2024-01-02T03:04:05".toList =
      ["Sep 09 09:09:09".toList] := rfl
  refine ⟨by rfl, hf, ?_⟩
  refine (claim_C5_extract_timestamps "Sep 09 09:09:09 2024-01-02T03:04:05".toList).2.2.1
    "Sep 09 09:09:09".toList ?_
  rw [hf]
  exact List.mem_singleton_self _

theorem mcount_cons (k' : String) (v : MetricValue) (m : Metrics) (k : String) :
    mcount ((k', v) :: m) k = (if k' = k then 1 else 0) + mcount m k := by
  simp only [mcount, List.filter]
  by_cases h : k' = k <;> simp [h, Nat.add_comm]

/-- When the JSON status body runs to completion (no exception), it has read
a Peer value with a length n, the `tailscale_peer_count` key gained exactly
one write, and the final dict maps it to n. -/
theorem tailscaleJsonBody_ok_peer (j : JsonVal) (st stb : AnalyzerState)
    (h : tailscaleJsonBody j st = (stb, none)) :
    ∃ n peers, pyGetD j "Peer" (.obj []) = .ok peers ∧ pyLen peers = .ok n ∧
      mcount stb.metrics "tailscale_peer_count" =
        mcount st.metrics "tailscale_peer_count" + 1 ∧
      mlookup stb.metrics "tailscale_peer_count" = some (.num n) := by
  have hne : ("tailscale_version" : String) ≠ "tailscale_peer_count" := by decide
  unfold tailscaleJsonBody at h
  repeat' split at h
  all_goals simp only [Prod.mk.injEq] at h
  all_goals obtain ⟨h1, h2⟩ := h
  all_goals first
    | exact (Option.some_ne_none _ h2).elim
    | (subst h1
       refine ⟨_, _, by assumption, by assumption, ?_, ?_⟩ <;>
         simp [addIssue, addInsight, setMetric, mcount_append, mcount_cons, mcount,
           mlookup_append, mlookup, hne])

/-- The trivial regex oracle (no matches anywhere), used for concrete runs
whose claims do not involve the pattern tables. -/
def rx0 : Regex := ⟨fun _ _ => 0, fun _ _ => none⟩

/-- A log directory holding only the two mesh-network status files: an empty
text status and an empty-object JSON status. -/
def inpC2 : LogDirInput :=
  ⟨"", none, none, none, [], some (.ok []), some (.ok (.obj [])), none, none, none⟩

/-- Claim C2 counterexample: in the single run over `inpC2` both status
analyzers execute and the key `tailscale_peer_count` is written twice - the
write-once-per-run invariant fails (the JSON-form write overwrites the
text-form write). -/
theorem claim_C2_counterexample :
    ∃ r, analyzeAllLogs rx0 inpC2 = .ok r ∧
      mcount r.metrics "tailscale_peer_count" = 2 :=
  ⟨_, rfl, rfl⟩

/-- The tailscale part of `inpC2`, fed directly to the tailscale wrapper. -/
def inpC2tail : LogDirInput :=
  ⟨"", none, none, none, [], some (.ok []), some (.ok (.obj [])), none, none, none⟩

/-- On a successful read, the text status analyzer appends exactly one
`tailscale_peer_count` write holding the dotted-quad count. -/
theorem analyzeTailscaleStatus_ok_metrics (txt : List Char) (st : AnalyzerState) :
    (analyzeTailscaleStatus (.ok txt) st).metrics =
      st.metrics ++ [("tailscale_peer_count", .num (countIPs txt))] := by
  unfold analyzeTailscaleStatus
  by_cases h1 : containsSub "Logged out".toList txt <;>
    by_cases h2 : containsSub "Tailscale is stopped".toList txt <;>
      by_cases h3 : containsSub "Connected to".toList txt <;>
        simp_all [addIssue, addInsight, setMetric]

/-- A log directory whose molecule scenario stems `a-b` and `a_b` collide
after the `'-'` to `'_'` normalization: both logs are analyzed under the
category `molecule_a_b`. -/
def inpC2mol : LogDirInput :=
  ⟨"", none, none, none, [("a-b", .ok []), ("a_b", .ok [])], none, none, none, none, none⟩

/-- Claim C2 (amended): Metrics keys are not write-once per run.  When both
the text-form and the JSON-form mesh-network status analyzers run in the same
analysis (text body readable, JSON body completing without exception), the
key `tailscale_peer_count` is written by each of them - twice in total - and
the JSON-form value (the Peer length) overwrites the text-form value.  The
failure is not specific to that key: two molecule scenario stems that
collide after `'-'` to `'_'` normalization (`a-b.log` and `a_b.log`, both
becoming category `molecule_a_b`) likewise write `molecule_a_b_lines` twice
in one run. -/
theorem claim_C2_peer_count_overwritten (rx : Regex) (logDir : String)
    (txt : List Char) (j : JsonVal) (stb : AnalyzerState)
    (hbody : tailscaleJsonBody j (analyzeTailscaleStatus (.ok txt) initState) =
      (stb, none)) :
    analyzeTailscaleLogs rx
      ⟨logDir, none, none, none, [], some (.ok txt), some (.ok j), none, none, none⟩
      initState = stb ∧
    mcount stb.metrics "tailscale_peer_count" = 2 ∧
    (∃ n peers, pyGetD j "Peer" (.obj []) = .ok peers ∧ pyLen peers = .ok n ∧
      mlookup stb.metrics "tailscale_peer_count" = some (.num n)) ∧
    (∃ r, analyzeAllLogs rx0 inpC2mol = .ok r ∧
      mcount r.metrics "molecule_a_b_lines" = 2) := by
  obtain ⟨n, peers, hp, hl, hc, hm⟩ :=
    tailscaleJsonBody_ok_peer j (analyzeTailscaleStatus (.ok txt) initState) stb hbody
  refine ⟨?_, ?_, ⟨n, peers, hp, hl, hm⟩, ⟨_, rfl, rfl⟩⟩
  · show analyzeTailscaleJsonStatus j (analyzeTailscaleStatus (.ok txt) initState) = stb
    unfold analyzeTailscaleJsonStatus
    rw [hbody]
  · rw [hc, analyzeTailscaleStatus_ok_metrics]
    simp [mcount_append, mcount_cons, mcount, initState]

/-- Claim C2 amended witness: the concrete empty-status run reaches the state
where the key was written twice and finally holds the JSON peer count 0. -/
theorem claim_C2_peer_count_overwritten_witness :
    mcount ((analyzeTailscaleLogs rx0 inpC2tail initState).metrics)
        "tailscale_peer_count" = 2 ∧
    mlookup ((analyzeTailscaleLogs rx0 inpC2tail initState).metrics)
        "tailscale_peer_count" = some (.num 0) := by
  obtain ⟨heq, hc, ⟨n, peers, hp, hl, hm⟩, -⟩ :=
    claim_C2_peer_count_overwritten rx0 "" [] (.obj [])
      (tailscaleJsonBody (.obj []) (analyzeTailscaleStatus (.ok []) initState)).1 rfl
  rw [show inpC2tail =
    (⟨"", none, none, none, [], some (.ok []), some (.ok (.obj [])), none, none, none⟩ :
      LogDirInput) from rfl]
  rw [heq]
  refine ⟨hc, ?_⟩
  have hn : n = 0 := by
    have : pyLen peers = .ok 0 := by
      have hpeq : peers = JsonVal.obj [] := by
        have := hp
        simp [pyGetD, jfield] at this
        exact this.symm
      rw [hpeq]; rfl
    rw [hl] at this
    injection this
  rw [hm, hn]

/-- A log directory whose only artifact is a mesh-network text status saying
"Logged out": the run records one tailscale error Issue, so the tailscale
recommendation rule fires. -/
def inpC1 : LogDirInput :=
  ⟨"", none, none, none, [], some (.ok "Logged out".toList), none, none, none, none⟩

/-- Claim C1 (code divergence): the top-level `recommendations` key of the
result document is initialized to the empty list and the final `update` never
copies the rule-table output into it, so it is empty on every run - even when
a rule fires and the output is stored under `metrics['recommendations']`
(shown on the concrete `inpC1` run, where the tailscale rule fires). -/
theorem claim_C1_recommendations_key_empty :
    (∀ (rx : Regex) (inp : LogDirInput) (r : AnalysisResults),
      analyzeAllLogs rx inp = .ok r → r.recommendations = []) ∧
    (∃ r, analyzeAllLogs rx0 inpC1 = .ok r ∧
      r.recommendations = [] ∧
      mlookup r.metrics "recommendations" = some (.recs [tailscaleRec 1])) := by
  constructor
  · intro rx inp r h
    unfold analyzeAllLogs at h
    cases hc : analyzeContainerLogs rx inp initState with
    | error e => rw [hc] at h; exact absurd h (by simp)
    | ok st1 =>
      rw [hc] at h
      simp only at h
      split at h
      · exact absurd h (by simp)
      · injection h with h'
        rw [← h']
  · exact ⟨_, rfl, rfl, rfl⟩

/-- Claim C1 witness: the general statement applied to the concrete
`inpC1` run. -/
theorem claim_C1_recommendations_key_empty_witness :
    ∃ r, analyzeAllLogs rx0 inpC1 = .ok r ∧ r.recommendations = [] :=
  ⟨_, rfl, claim_C1_recommendations_key_empty.1 rx0 inpC1 _ rfl⟩

theorem analyzeDockerLogs_containerRecent (rx : Regex) (inp : LogDirInput)
    (x : Option FileRead) (st : AnalyzerState) :
    analyzeDockerLogs rx { inp with containerRecent := x } st =
      analyzeDockerLogs rx inp st := rfl

theorem analyzeMoleculeLogs_containerRecent (rx : Regex) (inp : LogDirInput)
    (x : Option FileRead) (st : AnalyzerState) :
    analyzeMoleculeLogs rx { inp with containerRecent := x } st =
      analyzeMoleculeLogs rx inp st := rfl

theorem analyzeTailscaleLogs_containerRecent (rx : Regex) (inp : LogDirInput)
    (x : Option FileRead) (st : AnalyzerState) :
    analyzeTailscaleLogs rx { inp with containerRecent := x } st =
      analyzeTailscaleLogs rx inp st := rfl

theorem analyzeSystemLogs_containerRecent (rx : Regex) (inp : LogDirInput)
    (x : Option FileRead) (st : AnalyzerState) :
    analyzeSystemLogs rx { inp with containerRecent := x } st =
      analyzeSystemLogs rx inp st := rfl

/-- The docker-molecule-tailscale-system pipeline is append-only. -/
theorem frames_stages (rx : Regex) (inp : LogDirInput) :
    Frames (fun st => analyzeSystemLogs rx inp (analyzeTailscaleLogs rx inp
      (analyzeMoleculeLogs rx inp (analyzeDockerLogs rx inp st)))) := by
  intro st
  have e1 := (frames_comp (frames_comp (frames_comp
    (frames_analyzeDockerLogs rx inp) (frames_analyzeMoleculeLogs rx inp))
    (frames_analyzeTailscaleLogs rx inp)) (frames_analyzeSystemLogs rx inp)) st
  exact e1

theorem generateRecommendations_summary_isOk (st : AnalyzerState) :
    ∃ recs, generateRecommendations (generateSummary st).issues
      (generateSummary st).metrics = .ok recs := by
  unfold generateRecommendations
  rw [mlookup_total_errors_generateSummary]
  exact ⟨_, rfl⟩

/-- Whenever the container pass returns normally, the whole run returns a
result: the remaining passes, the summary and the recommendation step are
total. -/
theorem analyzeAllLogs_ok_of_container_ok (rx : Regex) (inp : LogDirInput)
    (st1 : AnalyzerState) (hc : analyzeContainerLogs rx inp initState = .ok st1) :
    ∃ r, analyzeAllLogs rx inp = .ok r := by
  unfold analyzeAllLogs
  rw [hc]
  simp only
  obtain ⟨recs, hg⟩ := generateRecommendations_summary_isOk
    (analyzeSystemLogs rx inp (analyzeTailscaleLogs rx inp
      (analyzeMoleculeLogs rx inp (analyzeDockerLogs rx inp st1))))
  rw [hg]
  exact ⟨_, rfl⟩

/-- Claim C9: a read failure in the generic log-file analyzer is caught and
recorded as exactly one error Issue tagged with the category (first
conjunct); at run level, a failing `container-recent.log` never changes
whether the run completes (second conjunct), and when both the failing and
the file-absent runs complete, the failing run's result is the absent run's
result plus exactly that one leading Issue - same insights, same timeline -
and the run still reached the recommendation step (third conjunct). -/
theorem claim_C9_read_failure_tolerated (rx : Regex) (inp : LogDirInput) (msg : String) :
    (∀ (st : AnalyzerState) (fname category : String)
        (patterns : List (String × List String)),
      analyzeLogFile rx fname (.err msg) category patterns st =
        addIssue st category
          ("Failed to analyze log file " ++ fname ++ ": " ++ msg) .error) ∧
    (∀ e, analyzeAllLogs rx { inp with containerRecent := some (.err msg) } = .error e ↔
          analyzeAllLogs rx { inp with containerRecent := none } = .error e) ∧
    (∀ rb rn,
      analyzeAllLogs rx { inp with containerRecent := some (.err msg) } = .ok rb →
      analyzeAllLogs rx { inp with containerRecent := none } = .ok rn →
      rb.issues = ⟨"container", "Failed to analyze log file " ++
          (inp.logDir ++ "/container/container-recent.log") ++ ": " ++ msg,
          Severity.error⟩ :: rn.issues ∧
      rb.insights = rn.insights ∧
      rb.timeline = rn.timeline ∧
      (mlookup rb.metrics "recommendations").isSome = true) := by
  have hCL : analyzeContainerLogs rx { inp with containerRecent := some (.err msg) }
      initState =
      (analyzeContainerLogs rx { inp with containerRecent := none } initState).map
        (fun d => appendSt (addIssue initState "container"
          ("Failed to analyze log file " ++
            (inp.logDir ++ "/container/container-recent.log") ++ ": " ++ msg)
          Severity.error) d) := by
    have h0 : analyzeContainerLogs rx { inp with containerRecent := some (.err msg) }
        initState =
        analyzeContainerLogs rx { inp with containerRecent := none }
          (addIssue initState "container"
            ("Failed to analyze log file " ++
              (inp.logDir ++ "/container/container-recent.log") ++ ": " ++ msg)
            Severity.error) := rfl
    rw [h0]
    exact analyzeContainerLogs_frame rx _ _
  refine ⟨fun st fname category patterns => rfl, ?_⟩
  cases hB : analyzeContainerLogs rx { inp with containerRecent := none } initState with
  | error e0 =>
    have hbad : analyzeAllLogs rx { inp with containerRecent := some (.err msg) } =
        .error e0 := by
      unfold analyzeAllLogs
      rw [hCL, hB]
      rfl
    have hbase : analyzeAllLogs rx { inp with containerRecent := none } = .error e0 := by
      unfold analyzeAllLogs
      rw [hB]
    refine ⟨?_, ?_⟩
    · intro e
      rw [hbad, hbase]
    · intro rb rn hb hn
      rw [hbad] at hb
      exact absurd hb (by simp)
  | ok s1 =>
    have hbadCL : analyzeContainerLogs rx { inp with containerRecent := some (.err msg) }
        initState = .ok (appendSt (addIssue initState "container"
          ("Failed to analyze log file " ++
            (inp.logDir ++ "/container/container-recent.log") ++ ": " ++ msg)
          Severity.error) s1) := by
      rw [hCL, hB]
      rfl
    have hstage : analyzeSystemLogs rx inp (analyzeTailscaleLogs rx inp
        (analyzeMoleculeLogs rx inp (analyzeDockerLogs rx inp
          (appendSt (addIssue initState "container"
            ("Failed to analyze log file " ++
              (inp.logDir ++ "/container/container-recent.log") ++ ": " ++ msg)
            Severity.error) s1)))) =
        appendSt (addIssue initState "container"
          ("Failed to analyze log file " ++
            (inp.logDir ++ "/container/container-recent.log") ++ ": " ++ msg)
          Severity.error)
          (analyzeSystemLogs rx inp (analyzeTailscaleLogs rx inp
            (analyzeMoleculeLogs rx inp (analyzeDockerLogs rx inp s1)))) :=
      (frames_stages rx inp).appendSt_arg _ s1
    refine ⟨?_, ?_⟩
    · intro e
      obtain ⟨rb, hrb⟩ := analyzeAllLogs_ok_of_container_ok rx _ _ hbadCL
      obtain ⟨rn, hrn⟩ := analyzeAllLogs_ok_of_container_ok rx _ _ hB
      rw [hrb, hrn]
      simp
    · intro rb rn hb hn
      unfold analyzeAllLogs at hb hn
      rw [hbadCL] at hb
      rw [hB] at hn
      simp only [analyzeDockerLogs_containerRecent, analyzeMoleculeLogs_containerRecent,
        analyzeTailscaleLogs_containerRecent, analyzeSystemLogs_containerRecent] at hb hn
      rw [hstage] at hb
      cases hg : generateRecommendations
          (generateSummary (appendSt (addIssue initState "container"
            ("Failed to analyze log file " ++
              (inp.logDir ++ "/container/container-recent.log") ++ ": " ++ msg)
            Severity.error)
            (analyzeSystemLogs rx inp (analyzeTailscaleLogs rx inp
              (analyzeMoleculeLogs rx inp (analyzeDockerLogs rx inp s1)))))).issues
          (generateSummary (appendSt (addIssue initState "container"
            ("Failed to analyze log file " ++
              (inp.logDir ++ "/container/container-recent.log") ++ ": " ++ msg)
            Severity.error)
            (analyzeSystemLogs rx inp (analyzeTailscaleLogs rx inp
              (analyzeMoleculeLogs rx inp (analyzeDockerLogs rx inp s1)))))).metrics with
      | error e =>
        rw [hg] at hb
        exact absurd hb (by simp)
      | ok recsB =>
        rw [hg] at hb
        cases hg2 : generateRecommendations
            (generateSummary (analyzeSystemLogs rx inp (analyzeTailscaleLogs rx inp
              (analyzeMoleculeLogs rx inp (analyzeDockerLogs rx inp s1))))).issues
            (generateSummary (analyzeSystemLogs rx inp (analyzeTailscaleLogs rx inp
              (analyzeMoleculeLogs rx inp (analyzeDockerLogs rx inp s1))))).metrics with
        | error e =>
          rw [hg2] at hn
          exact absurd hn (by simp)
        | ok recsN =>
          rw [hg2] at hn
          injection hb with hb'
          injection hn with hn'
          subst hb'
          subst hn'
          refine ⟨?_, ?_, ?_, ?_⟩
          · simp [generateSummary, appendSt, addIssue, initState]
          · simp [generateSummary, appendSt, addIssue, initState]
          · simp [generateSummary, appendSt, addIssue, initState]
          · simp [mlookup_append, mlookup]

/-- An otherwise-empty log directory for the C9 witness run. -/
def inpEmptyC9 : LogDirInput :=
  ⟨"L", none, none, none, [], none, none, none, none, none⟩

/-- Claim C9 witness: with every other artifact absent, the run whose
container log read fails with "boom" still completes, carrying exactly the
one failure Issue on top of the failure-free run, and reaches the
recommendation step. -/
theorem claim_C9_read_failure_tolerated_witness :
    ∃ rb rn,
      analyzeAllLogs rx0 { inpEmptyC9 with containerRecent := some (.err "boom") } =
        .ok rb ∧
      analyzeAllLogs rx0 { inpEmptyC9 with containerRecent := none } = .ok rn ∧
      rb.issues = ⟨"container", "Failed to analyze log file " ++
          ("L" ++ "/container/container-recent.log") ++ ": " ++ "boom",
          Severity.error⟩ :: rn.issues ∧
      (mlookup rb.metrics "recommendations").isSome = true := by
  refine ⟨_, _, rfl, rfl, ?_, ?_⟩
  · exact ((claim_C9_read_failure_tolerated rx0 inpEmptyC9 "boom").2.2 _ _ rfl rfl).1
  · exact ((claim_C9_read_failure_tolerated rx0 inpEmptyC9 "boom").2.2 _ _ rfl rfl).2.2.2
